import Mathlib

/-!
Shallow embedding of `easyfix-session/src/connection.rs` (the connection and
session-lifecycle core of the easyfix FIX engine) together with theorems
checking the natural-language specification against it.

Modelling conventions:
- The process-wide sender registry (`static SENDERS: HashMap<SessionId, Sender>`)
  is modelled as an association list threaded through the functions that the
  Rust code performs as mutations on the global map.
- The asynchronous input and output loops are modelled as structurally
  recursive functions over the list of events their streams yield.  Session
  lifecycle hooks (which live in `session.rs`, outside the verified source)
  are modelled as an oracle structure threading an abstract session state and
  recording a trace of hook invocations.
- Types of collaborators that are external to `connection.rs` (messages,
  error payloads, sinks) stay abstract type parameters.
-/

namespace Easyfix

/-- Abstract model of `SessionError` (crate root).  Only the two variants that
`connection.rs` constructs are needed. -/
inductive SessionError : Type where
  | logonNeverReceived
  | unknownSession
  deriving DecidableEq, Repr

/-- Modelled from the spec: the crate-root `Error` type is not under `src/`;
per the error taxonomy (handshake failures are typed session errors, transport
I/O failures are a distinct unrecoverable condition) it has a session-error
variant and an I/O variant, and the `From<io::Error>` conversion used by
`error.into()` produces the I/O variant. -/
inductive Err (IOE : Type) : Type where
  | sessionError (e : SessionError)
  | ioError (e : IOE)
  deriving DecidableEq, Repr

/-- Modelled from the spec: `DisconnectReason` (crate root, not under `src/`)
"enumerates why a session ended (e.g. connection lost, logical logout,
protocol violation)". -/
inductive DisconnectReason : Type where
  | connectionLost
  | logout
  | protocolViolation
  deriving DecidableEq, Repr

/-- `InputEvent` from `connection.rs::input_stream`:
`Message`, `DeserializeError`, `IoError`, `Timeout`.
`M` = decoded message, `E` = deserialize-error detail, `IOE` = I/O error. -/
inductive InputEvent (M E IOE : Type) : Type where
  | message (msg : M)
  | deserializeError (e : E)
  | ioError (e : IOE)
  | timeout
  deriving DecidableEq, Repr

/-- `OutputEvent` from `connection.rs::output_stream`:
`Message` (framed bytes), `Timeout` (heartbeat due), `Disconnect(reason)`. -/
inductive OutputEvent (B : Type) : Type where
  | message (bytes : B)
  | timeout
  | disconnect (reason : DisconnectReason)
  deriving DecidableEq, Repr

section Registry

variable {K V M : Type} [DecidableEq K]

/-- Lookup in the association-list model of the `SENDERS` hash map. -/
def lookupKey : List (K × V) → K → Option V
  | [], _ => none
  | (k, v) :: rest, k1 => if k1 = k then some v else lookupKey rest k1

/-- Removal in the association-list model of a hash map (`HashMap::remove`). -/
def removeKey : List (K × V) → K → List (K × V)
  | [], _ => []
  | (k, v) :: rest, k1 => if k1 = k then removeKey rest k1 else (k, v) :: removeKey rest k1

/-- Overwriting insertion (`HashMap::insert`), used for the active-sessions
table. -/
def insertKey (m : List (K × V)) (k : K) (v : V) : List (K × V) :=
  (k, v) :: removeKey m k

/-- `register_sender`: `if let Entry::Vacant(entry) = senders_mut().entry(session_id)
{ entry.insert(sender); }` — inserts only when the key is absent. -/
def register_sender (m : List (K × V)) (session_id : K) (sender_v : V) : List (K × V) :=
  match lookupKey m session_id with
  | some _ => m
  | none => (session_id, sender_v) :: m

/-- `unregister_sender`: `senders_mut().remove(session_id)`, silently ignoring
absence. -/
def unregister_sender (m : List (K × V)) (session_id : K) : List (K × V) :=
  removeKey m session_id

/-- `sender`: `senders().get(session_id)`. -/
def sender (m : List (K × V)) (session_id : K) : Option V :=
  lookupKey m session_id

/-- `send`: looks the sender up; on a hit the message is pushed into that
sender's channel and `Ok(())` is returned, on a miss the un-sent message is
returned as the error value. -/
def send (m : List (K × V)) (session_id : K) (msg : M) : Except M Unit :=
  match sender m session_id with
  | some _ => Except.ok ()
  | none => Except.error msg

/-- `send_raw`: like `send` but the session id is derived from the message via
`SessionId::from_input_msg`. -/
def send_raw (m : List (K × V)) (from_input_msg : M → K) (msg : M) : Except M Unit :=
  match sender m (from_input_msg msg) with
  | some _ => Except.ok ()
  | none => Except.error msg

end Registry

section FirstMsg

variable {M E IOE : Type}

/-- The outcome of `timeout(logon_timeout, stream.next()).await` in
`first_msg`: `none` is the deadline elapsing (`Err(Elapsed)`), `some none` is
the stream ending (`Ok(None)`), `some (some ev)` is an event arriving within
the deadline (`Ok(Some(ev))`). -/
def FirstPoll (M E IOE : Type) : Type :=
  Option (Option (InputEvent M E IOE))

/-- `first_msg`: only `Ok(Some(InputEvent::Message(msg)))` succeeds; an
`IoError` event propagates as `error.into()`; a `DeserializeError` event and
every other outcome (deadline elapsed, stream end, `Timeout` event) collapse
to `SessionError::LogonNeverReceived`. -/
def first_msg : FirstPoll M E IOE → Except (Err IOE) M
  | some (some (InputEvent.message msg)) => Except.ok msg
  | some (some (InputEvent.ioError e)) => Except.error (Err.ioError e)
  | some (some (InputEvent.deserializeError _)) =>
      Except.error (Err.sessionError SessionError.logonNeverReceived)
  | _ => Except.error (Err.sessionError SessionError.logonNeverReceived)

end FirstMsg

section Loops

variable {σ τ M E IOE B F : Type}

/-- Oracle for the session lifecycle hooks the input loop calls
(`Session` lives in `session.rs`, outside the verified source): each hook
transforms an abstract session state `σ`; `on_message_in` may additionally
request disconnection (`Option Disconnect` in Rust, here `Option Unit`);
`on_io_error` additionally yields the `Result` the loop returns. -/
structure SessionIn (σ M E IOE F : Type) : Type where
  on_message_in : σ → M → σ × Option Unit
  on_deserialize_error : σ → E → σ
  on_io_error : σ → IOE → σ × Except F Unit
  on_in_timeout : σ → σ

/-- One recorded hook invocation of the input loop. -/
inductive InCall (M E IOE : Type) : Type where
  | onMessageIn (msg : M)
  | onDeserializeError (e : E)
  | onIoError (e : IOE)
  | onInTimeout
  deriving DecidableEq, Repr

/-- `Connection::input_loop`: delivers each event to the matching session
hook; `Message` with a `Disconnect` answer breaks out with `Ok(())`;
`DeserializeError` and `Timeout` continue iterating; `IoError` returns
`on_io_error`'s verdict immediately; stream end returns `Ok(())`.
Result: final session state, trace of hook calls, loop result. -/
def input_loop (s : SessionIn σ M E IOE F) :
    σ → List (InputEvent M E IOE) → σ × List (InCall M E IOE) × Except F Unit
  | st, [] => (st, [], Except.ok ())
  | st, InputEvent.message msg :: rest =>
    match s.on_message_in st msg with
    | (st1, some _) => (st1, [InCall.onMessageIn msg], Except.ok ())
    | (st1, none) =>
      let r := input_loop s st1 rest
      (r.1, InCall.onMessageIn msg :: r.2.1, r.2.2)
  | st, InputEvent.deserializeError e :: rest =>
    let r := input_loop s (s.on_deserialize_error st e) rest
    (r.1, InCall.onDeserializeError e :: r.2.1, r.2.2)
  | st, InputEvent.ioError e :: _ =>
    let p := s.on_io_error st e
    (p.1, [InCall.onIoError e], p.2)
  | st, InputEvent.timeout :: rest =>
    let r := input_loop s (s.on_in_timeout st) rest
    (r.1, InCall.onInTimeout :: r.2.1, r.2.2)

/-- Oracle for the session hooks the output loop calls. -/
structure SessionOut (σ IOE F : Type) : Type where
  on_out_timeout : σ → σ
  on_io_error : σ → IOE → σ × Except F Unit
  emit_logout : σ → DisconnectReason → σ

/-- The writable half of the transport: `write_all` and `flush` transform a
sink state `τ` and may fail with an I/O error. -/
structure Sink (τ B IOE : Type) : Type where
  write_all : τ → B → τ × Option IOE
  flush : τ → τ × Option IOE

/-- One recorded action of the output loop. -/
inductive OutCall (B IOE : Type) : Type where
  | writeAll (bytes : B)
  | onIoError (e : IOE)
  | onOutTimeout
  | flushSink
  | emitLogout (reason : DisconnectReason)
  deriving DecidableEq, Repr

/-- `Connection::output_loop`: a `Message` is written fully (a write failure
returns `on_io_error`'s verdict); `Timeout` invokes `on_out_timeout`;
`Disconnect(reason)` flushes best-effort (the flush outcome is only logged),
emits the final logout with that reason and returns `Ok(())`; when the stream
ends without a `Disconnect`, the final logout is emitted with
`DisconnectReason::ConnectionLost` and `Ok(())` is returned.
Result: final session state, final sink state, trace, loop result. -/
def output_loop (s : SessionOut σ IOE F) (k : Sink τ B IOE) :
    σ → τ → List (OutputEvent B) → σ × τ × List (OutCall B IOE) × Except F Unit
  | st, sk, [] =>
    (s.emit_logout st DisconnectReason.connectionLost, sk,
      [OutCall.emitLogout DisconnectReason.connectionLost], Except.ok ())
  | st, sk, OutputEvent.message bytes :: rest =>
    match k.write_all sk bytes with
    | (sk1, some e) =>
      let p := s.on_io_error st e
      (p.1, sk1, [OutCall.writeAll bytes, OutCall.onIoError e], p.2)
    | (sk1, none) =>
      let r := output_loop s k st sk1 rest
      (r.1, r.2.1, OutCall.writeAll bytes :: r.2.2.1, r.2.2.2)
  | st, sk, OutputEvent.timeout :: rest =>
    let r := output_loop s k (s.on_out_timeout st) sk rest
    (r.1, r.2.1, OutCall.onOutTimeout :: r.2.2.1, r.2.2.2)
  | st, sk, OutputEvent.disconnect reason :: _ =>
    let fl := k.flush sk
    (s.emit_logout st reason, fl.1, [OutCall.flushSink, OutCall.emitLogout reason],
      Except.ok ())

/-- Number of `emit_logout` invocations recorded in an output-loop trace. -/
def countEmitLogout (tr : List (OutCall B IOE)) : Nat :=
  tr.countP fun c =>
    match c with
    | OutCall.emitLogout _ => true
    | _ => false

end Loops

section Bootstrap

variable {K V A M E IOE SS : Type} [DecidableEq K]

/-- One step of a connection bootstrap, as recorded in the bootstrap trace. -/
inductive ConnEvent (K : Type) : Type where
  | registerSender (session_id : K)
  | insertActive (session_id : K)
  | onFirstMessageIn
  | emitCreated (session_id : K)
  | sendLogonRequest
  | loopPhase
  | onDisconnect
  | unregisterSender (session_id : K)
  | removeActive (session_id : K)
  deriving DecidableEq, Repr

/-- `acceptor_connection`: wait for the first message within the logon
deadline; derive the `SessionId` from it; look up the configured session
(failing with `UnknownSession` when absent); only then register the sender,
insert into the active-sessions table, feed the first message to the session,
emit the `Created` event, run both loops jointly, and unconditionally run the
cleanup sequence (`on_disconnect`, `unregister_sender`, active-table removal).
The loop phase touches neither table, so its joint outcome is the parameter
`loopOutcome` (`tokio::try_join!` mapped to `()`).
Result: final registry, final active table, trace, returned result. -/
def acceptor_connection (regs : List (K × V)) (active : List (K × A))
    (firstPoll : FirstPoll M E IOE) (from_input_msg : M → K)
    (get_session : K → Option SS) (sender_v : V) (mk_session : SS → A)
    (loopOutcome : Except (Err IOE) Unit) :
    List (K × V) × List (K × A) × List (ConnEvent K) × Except (Err IOE) Unit :=
  match first_msg firstPoll with
  | Except.error e => (regs, active, [], Except.error e)
  | Except.ok msg =>
    let session_id := from_input_msg msg
    match get_session session_id with
    | none =>
      (regs, active, [],
        Except.error (Err.sessionError SessionError.unknownSession))
    | some ss =>
      let regs1 := register_sender regs session_id sender_v
      let active1 := insertKey active session_id (mk_session ss)
      (unregister_sender regs1 session_id, removeKey active1 session_id,
        [ConnEvent.registerSender session_id, ConnEvent.insertActive session_id,
          ConnEvent.onFirstMessageIn, ConnEvent.emitCreated session_id,
          ConnEvent.loopPhase, ConnEvent.onDisconnect,
          ConnEvent.unregisterSender session_id, ConnEvent.removeActive session_id],
        loopOutcome)

/-- `initiator_connection`: the identity and settings are known up front;
register the sender, insert into the active table, emit `Created`, instruct
the session to send the logon request, then enter the joint loop phase and
finally run the same unconditional cleanup sequence as the acceptor. -/
def initiator_connection (regs : List (K × V)) (active : List (K × A))
    (session_id : K) (sender_v : V) (session : A)
    (loopOutcome : Except (Err IOE) Unit) :
    List (K × V) × List (K × A) × List (ConnEvent K) × Except (Err IOE) Unit :=
  let regs1 := register_sender regs session_id sender_v
  let active1 := insertKey active session_id session
  (unregister_sender regs1 session_id, removeKey active1 session_id,
    [ConnEvent.registerSender session_id, ConnEvent.insertActive session_id,
      ConnEvent.emitCreated session_id, ConnEvent.sendLogonRequest,
      ConnEvent.loopPhase, ConnEvent.onDisconnect,
      ConnEvent.unregisterSender session_id, ConnEvent.removeActive session_id],
    loopOutcome)

end Bootstrap

section Instances

/-- A trivial input-side session oracle over unit types whose `on_io_error`
reports the failure, for concrete evaluation. -/
def sessionIn0 : SessionIn Unit Unit Unit Unit Unit where
  on_message_in := fun st _ => (st, none)
  on_deserialize_error := fun st _ => st
  on_io_error := fun _ _ => ((), Except.error ())
  on_in_timeout := fun st => st

/-- A trivial output-side session oracle over unit types whose `on_io_error`
reports the failure, for concrete evaluation. -/
def sessionOut0 : SessionOut Unit Unit Unit where
  on_out_timeout := fun st => st
  on_io_error := fun _ _ => ((), Except.error ())
  emit_logout := fun st _ => st

/-- A sink whose every write fails with an I/O error. -/
def failSink : Sink Unit Unit Unit where
  write_all := fun _ _ => ((), some ())
  flush := fun sk => (sk, none)

/-- A sink whose writes and flushes always succeed. -/
def okSink : Sink Unit Unit Unit where
  write_all := fun _ _ => ((), none)
  flush := fun sk => (sk, none)

end Instances

/-! Theorems.  Each claim of the specification gets exactly one theorem
(plus, where needed, a counterexample and a closed witness). -/

section RegistryTheorems

variable {K V M : Type} [DecidableEq K]

/-- Removing a key from the association-list map makes it unlookupable. -/
theorem lookupKey_removeKey_self (m : List (K × V)) (k : K) :
    lookupKey (removeKey m k) k = none := by
  induction m with
  | nil => rfl
  | cons hd tl ih =>
    obtain ⟨k0, v0⟩ := hd
    by_cases h : k = k0
    · subst h; simp [removeKey, ih]
    · simp [removeKey, lookupKey, h, ih]

/-- Claim C4: registering a sender for an id that is already registered is a
silent no-op: the map is unchanged, `sender` still finds the first-registered
channel, `send` still succeeds against it, and only `unregister_sender`
removes it. -/
theorem register_sender_no_replace (m : List (K × V)) (session_id : K)
    (v0 v1 : V) (msg : M) (h : lookupKey m session_id = some v0) :
    register_sender m session_id v1 = m
      ∧ sender (register_sender m session_id v1) session_id = some v0
      ∧ send (register_sender m session_id v1) session_id msg = Except.ok ()
      ∧ sender (unregister_sender (register_sender m session_id v1) session_id)
          session_id = none := by
  have hreg : register_sender m session_id v1 = m := by
    simp [register_sender, h]
  refine ⟨hreg, ?_, ?_, ?_⟩
  · rw [hreg]; exact h
  · rw [hreg]; simp [send, sender, h]
  · rw [hreg]; exact lookupKey_removeKey_self m session_id

/-- Concrete witness for C4, at a one-entry registry over naturals. -/
theorem register_sender_no_replace_witness :
    register_sender [((1 : Nat), (10 : Nat))] 1 20 = [(1, 10)]
      ∧ sender (register_sender [((1 : Nat), (10 : Nat))] 1 20) 1 = some 10
      ∧ send (register_sender [((1 : Nat), (10 : Nat))] 1 20) 1 (5 : Nat)
          = Except.ok ()
      ∧ sender (unregister_sender (register_sender [((1 : Nat), (10 : Nat))] 1 20) 1) 1
          = none :=
  register_sender_no_replace [(1, 10)] 1 10 20 5 rfl

/-- Claim C7: `send` returns `Ok(())` exactly when a sender is registered for
the id, and otherwise returns the original un-sent message as the error
value; `send_raw` behaves the same with the id derived from the message. -/
theorem send_ok_iff_registered (m : List (K × V)) (session_id : K) (msg : M)
    (from_input_msg : M → K) (raw : M) :
    (send m session_id msg = Except.ok () ↔ (sender m session_id).isSome = true)
      ∧ (sender m session_id = none → send m session_id msg = Except.error msg)
      ∧ (send_raw m from_input_msg raw = Except.ok ()
          ↔ (sender m (from_input_msg raw)).isSome = true)
      ∧ (sender m (from_input_msg raw) = none
          → send_raw m from_input_msg raw = Except.error raw) := by
  refine ⟨?_, ?_, ?_, ?_⟩
  · cases h : sender m session_id <;> simp [send, h]
  · intro h; simp [send, h]
  · cases h : sender m (from_input_msg raw) <;> simp [send_raw, h]
  · intro h; simp [send_raw, h]

/-- Concrete witness for C7: a miss returns the un-sent message, a hit
returns success. -/
theorem send_ok_iff_registered_witness :
    send ([] : List (Nat × Nat)) 1 (5 : Nat) = Except.error 5
      ∧ send_raw [((2 : Nat), (10 : Nat))] (fun msg => msg) (2 : Nat)
          = Except.ok () :=
  ⟨(send_ok_iff_registered [] 1 5 (fun msg => msg) 5).2.1 rfl,
    (send_ok_iff_registered [((2 : Nat), (10 : Nat))] 1 5 (fun msg => msg) 2).2.2.1.mpr
      (by simp [sender, lookupKey])⟩

end RegistryTheorems

section InputLoopTheorems

variable {σ M E IOE F : Type}

/-- Claim C3: a `DeserializeError` event never terminates the input loop —
it is delivered to `on_deserialize_error` and the loop continues on the rest
of the events — while an `IoError` event always terminates the loop with a
failure after informing the session via `on_io_error` (the hypothesis that
`on_io_error` reports a failure is modelled from the spec, `Session` being
outside the verified source); the remaining events are not consumed. -/
theorem input_loop_deserialize_continue_io_fatal (s : SessionIn σ M E IOE F)
    (hfail : ∀ st e, ∃ f, (s.on_io_error st e).2 = Except.error f) :
    (∀ st e rest, input_loop s st (InputEvent.deserializeError e :: rest) =
      ((input_loop s (s.on_deserialize_error st e) rest).1,
        InCall.onDeserializeError e
          :: (input_loop s (s.on_deserialize_error st e) rest).2.1,
        (input_loop s (s.on_deserialize_error st e) rest).2.2))
    ∧ (∀ st e rest, ∃ f,
        input_loop s st (InputEvent.ioError e :: rest) =
          ((s.on_io_error st e).1, [InCall.onIoError e], Except.error f)) := by
  constructor
  · intro st e rest; rfl
  · intro st e rest
    obtain ⟨f, hf⟩ := hfail st e
    exact ⟨f, by simp [input_loop, hf]⟩

/-- Concrete witness for C3 at unit types: the loop survives a deserialize
error and fails on an I/O error. -/
theorem input_loop_deserialize_continue_io_fatal_witness :
    (input_loop sessionIn0 () [InputEvent.deserializeError ()] =
      ((input_loop sessionIn0 (sessionIn0.on_deserialize_error () ()) []).1,
        InCall.onDeserializeError ()
          :: (input_loop sessionIn0 (sessionIn0.on_deserialize_error () ()) []).2.1,
        (input_loop sessionIn0 (sessionIn0.on_deserialize_error () ()) []).2.2))
    ∧ (∃ f, input_loop sessionIn0 () [InputEvent.ioError ()] =
        ((sessionIn0.on_io_error () ()).1, [InCall.onIoError ()], Except.error f)) :=
  ⟨(input_loop_deserialize_continue_io_fatal sessionIn0
      (fun _ _ => ⟨(), rfl⟩)).1 () () [],
    (input_loop_deserialize_continue_io_fatal sessionIn0
      (fun _ _ => ⟨(), rfl⟩)).2 () () []⟩

/-- Claim C9: when the input event list contains no `IoError` event, the
input loop terminates successfully with `Ok(())` — natural stream exhaustion
(and a hook-requested disconnect) are not errors. -/
theorem input_loop_stream_end_ok (s : SessionIn σ M E IOE F)
    (evs : List (InputEvent M E IOE)) (st : σ)
    (h : ∀ e : IOE, InputEvent.ioError e ∉ evs) :
    (input_loop s st evs).2.2 = Except.ok () := by
  induction evs generalizing st with
  | nil => rfl
  | cons ev rest ih =>
    have hrest : ∀ e : IOE, InputEvent.ioError e ∉ rest := by
      intro e hmem
      exact h e (List.mem_cons_of_mem _ hmem)
    cases ev with
    | message msg =>
      rcases hm : s.on_message_in st msg with ⟨st1, d⟩
      cases d with
      | none => simpa [input_loop, hm] using ih st1 hrest
      | some u => simp [input_loop, hm]
    | deserializeError e =>
      simpa [input_loop] using ih (s.on_deserialize_error st e) hrest
    | ioError e => exact absurd (List.mem_cons_self _ _) (h e)
    | timeout =>
      simpa [input_loop] using ih (s.on_in_timeout st) hrest

/-- Concrete witness for C9: a stream of one message, one deserialize error
and one timeout ends with `Ok(())`. -/
theorem input_loop_stream_end_ok_witness :
    (input_loop sessionIn0 ()
      [InputEvent.message (), InputEvent.deserializeError (), InputEvent.timeout]).2.2
      = Except.ok () :=
  input_loop_stream_end_ok sessionIn0
    [InputEvent.message (), InputEvent.deserializeError (), InputEvent.timeout] ()
    (by intro e h; simp at h)

end InputLoopTheorems

section OutputLoopTheorems

variable {σ τ B IOE F : Type}

/-- The output loop never emits the final logout more than once. -/
theorem output_loop_logout_le_one (s : SessionOut σ IOE F) (k : Sink τ B IOE)
    (evs : List (OutputEvent B)) (st : σ) (sk : τ) :
    countEmitLogout ((output_loop s k st sk evs).2.2.1) ≤ 1 := by
  induction evs generalizing st sk with
  | nil => simp [output_loop, countEmitLogout]
  | cons ev rest ih =>
    cases ev with
    | message bytes =>
      rcases hw : k.write_all sk bytes with ⟨sk1, oe⟩
      cases oe with
      | none =>
        simpa [output_loop, hw, countEmitLogout, List.countP_cons] using ih st sk1
      | some e => simp [output_loop, hw, countEmitLogout, List.countP_cons]
    | timeout =>
      simpa [output_loop, countEmitLogout, List.countP_cons]
        using ih (s.on_out_timeout st) sk
    | disconnect reason => simp [output_loop, countEmitLogout, List.countP_cons]

/-- When no write fails, the output loop emits the final logout exactly
once: either at the terminal `Disconnect` event or at channel closure. -/
theorem output_loop_logout_eq_one (s : SessionOut σ IOE F) (k : Sink τ B IOE)
    (hw : ∀ sk1 bytes, (k.write_all sk1 bytes).2 = none)
    (evs : List (OutputEvent B)) (st : σ) (sk : τ) :
    countEmitLogout ((output_loop s k st sk evs).2.2.1) = 1 := by
  induction evs generalizing st sk with
  | nil => simp [output_loop, countEmitLogout]
  | cons ev rest ih =>
    cases ev with
    | message bytes =>
      rcases h : k.write_all sk bytes with ⟨sk1, oe⟩
      have : oe = none := by
        have := hw sk bytes
        rw [h] at this
        exact this
      subst this
      simpa [output_loop, h, countEmitLogout, List.countP_cons] using ih st sk1
    | timeout =>
      simpa [output_loop, countEmitLogout, List.countP_cons]
        using ih (s.on_out_timeout st) sk
    | disconnect reason => simp [output_loop, countEmitLogout, List.countP_cons]

/-- Counterexample to claim C1 as stated: in a run whose termination is
caused by a transport write I/O error, the output loop terminates (here with
`on_io_error`'s failure verdict) having emitted zero logouts — not exactly
one. -/
theorem output_loop_write_error_no_logout_cex :
    (output_loop sessionOut0 failSink () () [OutputEvent.message ()]).2.2
      = ([OutCall.writeAll (), OutCall.onIoError ()], Except.error ())
    ∧ countEmitLogout
        ((output_loop sessionOut0 failSink () () [OutputEvent.message ()]).2.2.1)
      = 0 :=
  ⟨rfl, rfl⟩

/-- Claim C1, amended: the output loop emits the final logout at most once
(never twice), and exactly once whenever it terminates by an explicit
`Disconnect` event or by silent channel closure (equivalently, whenever no
transport write fails); a termination caused by a write I/O error emits no
logout. -/
theorem output_loop_logout_at_most_once (s : SessionOut σ IOE F)
    (k : Sink τ B IOE) (evs : List (OutputEvent B)) (st : σ) (sk : τ) :
    countEmitLogout ((output_loop s k st sk evs).2.2.1) ≤ 1
      ∧ ((∀ sk1 bytes, (k.write_all sk1 bytes).2 = none)
          → countEmitLogout ((output_loop s k st sk evs).2.2.1) = 1) :=
  ⟨output_loop_logout_le_one s k evs st sk,
    fun hw => output_loop_logout_eq_one s k hw evs st sk⟩

/-- Concrete witness for the amended C1: with an always-succeeding sink, a
run over a message, a heartbeat timeout and channel closure emits exactly one
logout. -/
theorem output_loop_logout_at_most_once_witness :
    countEmitLogout
      ((output_loop sessionOut0 okSink () ()
        [OutputEvent.message (), OutputEvent.timeout]).2.2.1) = 1 :=
  (output_loop_logout_at_most_once sessionOut0 okSink
    [OutputEvent.message (), OutputEvent.timeout] () ()).2 (fun _ _ => rfl)

/-- Claim C5: on a `Disconnect(reason)` event the output loop flushes the
transport (for every sink, including ones whose flush fails — the flush
verdict does not affect the outcome), emits the final logout with exactly
that reason and returns `Ok(())` without consuming further events; when the
output sequence ends without an explicit `Disconnect`, it emits the final
logout with the default `ConnectionLost` reason and returns `Ok(())`. -/
theorem output_loop_disconnect_and_close_logout (s : SessionOut σ IOE F)
    (k : Sink τ B IOE) :
    (∀ st sk reason rest,
      output_loop s k st sk (OutputEvent.disconnect reason :: rest) =
        (s.emit_logout st reason, (k.flush sk).1,
          [OutCall.flushSink, OutCall.emitLogout reason], Except.ok ()))
    ∧ (∀ st sk, output_loop s k st sk [] =
        (s.emit_logout st DisconnectReason.connectionLost, sk,
          [OutCall.emitLogout DisconnectReason.connectionLost], Except.ok ())) :=
  ⟨fun _ _ _ _ => rfl, fun _ _ => rfl⟩

end OutputLoopTheorems

section BootstrapTheorems

variable {K V A M E IOE SS : Type} [DecidableEq K]

/-- Counterexample to claim C2 as stated: when the first event within the
deadline is an I/O error, the bootstrap fails with the converted I/O error,
not with the logon-never-received kind (here with a configured session, so the
failure kind comes from `first_msg` alone). -/
theorem first_msg_io_error_kind_cex :
    (acceptor_connection ([] : List (Nat × Nat)) ([] : List (Nat × Nat))
        (some (some (InputEvent.ioError (7 : Nat))) : FirstPoll Nat Nat Nat)
        (fun msg => msg) (fun _ => some (0 : Nat)) 0 (fun ss => ss)
        (Except.ok ())).2.2.2
      = Except.error (Err.ioError 7)
    ∧ Err.ioError (7 : Nat) ≠ Err.sessionError SessionError.logonNeverReceived :=
  ⟨rfl, by decide⟩

/-- Claim C2, amended: whenever `first_msg` fails, the acceptor bootstrap
returns that failure with the Sender Registry and active-sessions table
unchanged and an empty trace; the failure kind is logon-never-received for a
deadline elapse, stream end, synthetic timeout event or decode error, while a
first `IoError` event fails with the converted I/O error instead. -/
theorem acceptor_first_msg_failure (regs : List (K × V)) (active : List (K × A))
    (p : FirstPoll M E IOE) (from_input_msg : M → K)
    (get_session : K → Option SS) (sender_v : V) (mk_session : SS → A)
    (loopOutcome : Except (Err IOE) Unit) (err : Err IOE)
    (h : first_msg p = Except.error err) :
    acceptor_connection regs active p from_input_msg get_session sender_v
        mk_session loopOutcome = (regs, active, [], Except.error err)
    ∧ (∀ e : IOE, first_msg (some (some (InputEvent.ioError e)) : FirstPoll M E IOE)
        = Except.error (Err.ioError e))
    ∧ first_msg (none : FirstPoll M E IOE)
        = Except.error (Err.sessionError SessionError.logonNeverReceived)
    ∧ first_msg (some none : FirstPoll M E IOE)
        = Except.error (Err.sessionError SessionError.logonNeverReceived)
    ∧ (∀ e : E,
        first_msg (some (some (InputEvent.deserializeError e)) : FirstPoll M E IOE)
          = Except.error (Err.sessionError SessionError.logonNeverReceived))
    ∧ first_msg (some (some (InputEvent.timeout : InputEvent M E IOE)))
        = Except.error (Err.sessionError SessionError.logonNeverReceived) :=
  ⟨by simp [acceptor_connection, h], fun _ => rfl, rfl, rfl, fun _ => rfl, rfl⟩

/-- Concrete witness for the amended C2: an elapsed logon deadline leaves the
empty registry untouched and fails with logon-never-received. -/
theorem acceptor_first_msg_failure_witness :
    acceptor_connection ([] : List (Nat × Nat)) ([] : List (Nat × Nat))
        (none : FirstPoll Nat Nat Nat) (fun msg => msg) (fun _ => some (0 : Nat))
        0 (fun ss => ss) (Except.ok ())
      = ([], [], [],
          Except.error (Err.sessionError SessionError.logonNeverReceived)) :=
  (acceptor_first_msg_failure [] [] none (fun msg => msg) (fun _ => some 0) 0
    (fun ss => ss) (Except.ok ())
    (Err.sessionError SessionError.logonNeverReceived) rfl).1

/-- Claim C10: when the first message decodes but its derived `SessionId` has
no configured session, the acceptor bootstrap fails with `UnknownSession` and
leaves both the Sender Registry and the active-sessions table unmodified. -/
theorem acceptor_unknown_session_no_registration (regs : List (K × V))
    (active : List (K × A)) (p : FirstPoll M E IOE) (from_input_msg : M → K)
    (get_session : K → Option SS) (sender_v : V) (mk_session : SS → A)
    (loopOutcome : Except (Err IOE) Unit) (msg : M)
    (hm : first_msg p = Except.ok msg)
    (hs : get_session (from_input_msg msg) = none) :
    acceptor_connection regs active p from_input_msg get_session sender_v
        mk_session loopOutcome
      = (regs, active, [],
          Except.error (Err.sessionError SessionError.unknownSession)) := by
  simp [acceptor_connection, hm, hs]

/-- Concrete witness for C10: a decoded first message whose id is not
configured fails with `UnknownSession` and changes nothing. -/
theorem acceptor_unknown_session_no_registration_witness :
    acceptor_connection ([] : List (Nat × Nat)) ([] : List (Nat × Nat))
        (some (some (InputEvent.message (3 : Nat))) : FirstPoll Nat Nat Nat)
        (fun msg => msg) (fun _ => (none : Option Nat)) 0 (fun ss => ss)
        (Except.ok ())
      = ([], [], [], Except.error (Err.sessionError SessionError.unknownSession)) :=
  acceptor_unknown_session_no_registration [] [] _ (fun msg => msg)
    (fun _ => none) 0 (fun ss => ss) (Except.ok ()) 3 rfl rfl

/-- Claim C6: once a connection reaches the loop phase, then after the joined
loops complete — whatever `loopOutcome` is, success or failure — the session's
`on_disconnect` hook is invoked and the identity is absent from both the
Sender Registry and the active-sessions table, on the acceptor path and on the
initiator path alike. -/
theorem connection_cleanup_after_loops (regs : List (K × V))
    (active : List (K × A)) (p : FirstPoll M E IOE) (from_input_msg : M → K)
    (get_session : K → Option SS) (sender_v : V) (mk_session : SS → A)
    (loopOutcome : Except (Err IOE) Unit) (msg : M) (ss : SS)
    (hm : first_msg p = Except.ok msg)
    (hs : get_session (from_input_msg msg) = some ss) :
    (lookupKey (acceptor_connection regs active p from_input_msg get_session
          sender_v mk_session loopOutcome).1 (from_input_msg msg) = none
      ∧ lookupKey (acceptor_connection regs active p from_input_msg get_session
          sender_v mk_session loopOutcome).2.1 (from_input_msg msg) = none
      ∧ ConnEvent.onDisconnect ∈ (acceptor_connection regs active p
          from_input_msg get_session sender_v mk_session loopOutcome).2.2.1)
    ∧ (∀ (regs2 : List (K × V)) (active2 : List (K × A)) (session_id : K)
        (sv : V) (sess : A) (lo : Except (Err IOE) Unit),
        lookupKey (initiator_connection regs2 active2 session_id sv sess lo).1
            session_id = none
        ∧ lookupKey (initiator_connection regs2 active2 session_id sv sess lo).2.1
            session_id = none
        ∧ ConnEvent.onDisconnect
            ∈ (initiator_connection regs2 active2 session_id sv sess lo).2.2.1) := by
  refine ⟨⟨?_, ?_, ?_⟩, ?_⟩
  · simp [acceptor_connection, hm, hs, unregister_sender, lookupKey_removeKey_self]
  · simp [acceptor_connection, hm, hs, lookupKey_removeKey_self]
  · simp [acceptor_connection, hm, hs]
  · intro regs2 active2 session_id sv sess lo
    refine ⟨?_, ?_, ?_⟩
    · simp [initiator_connection, unregister_sender, lookupKey_removeKey_self]
    · simp [initiator_connection, lookupKey_removeKey_self]
    · simp [initiator_connection]

/-- Concrete witness for C6: after a concrete acceptor run the id is gone
from the registry, and a concrete initiator run invokes `on_disconnect`. -/
theorem connection_cleanup_after_loops_witness :
    lookupKey (acceptor_connection ([] : List (Nat × Nat))
        ([] : List (Nat × Nat))
        (some (some (InputEvent.message (1 : Nat))) : FirstPoll Nat Nat Nat)
        (fun msg => msg) (fun _ => some (0 : Nat)) 0 (fun ss => ss)
        (Except.ok ())).1 1 = none
    ∧ ConnEvent.onDisconnect ∈ (initiator_connection ([] : List (Nat × Nat))
        ([] : List (Nat × Nat)) (1 : Nat) (0 : Nat) (0 : Nat)
        (Except.ok () : Except (Err Nat) Unit)).2.2.1 :=
  ⟨(connection_cleanup_after_loops [] []
      (some (some (InputEvent.message (1 : Nat)))) (fun msg => msg)
      (fun _ => some 0) 0 (fun ss => ss) (Except.ok ()) 1 0 rfl rfl).1.1,
    ((connection_cleanup_after_loops ([] : List (Nat × Nat)) []
      (some (some (InputEvent.message (1 : Nat))) : FirstPoll Nat Nat Nat)
      (fun msg => msg) (fun _ => some (0 : Nat)) 0 (fun ss => ss)
      (Except.ok ()) 1 0 rfl rfl).2 [] [] 1 0 0 (Except.ok ())).2.2⟩

/-- Claim C8: in the initiator bootstrap, registering the sender, inserting
into the active table and instructing the session to send the logon request
all happen strictly before the loop phase is entered. -/
theorem initiator_logon_request_before_loop_phase (regs : List (K × V))
    (active : List (K × A)) (session_id : K) (sender_v : V) (session : A)
    (loopOutcome : Except (Err IOE) Unit) :
    ∃ pre post,
      (initiator_connection regs active session_id sender_v session
          loopOutcome).2.2.1 = pre ++ ConnEvent.loopPhase :: post
      ∧ ConnEvent.registerSender session_id ∈ pre
      ∧ ConnEvent.insertActive session_id ∈ pre
      ∧ ConnEvent.sendLogonRequest ∈ pre := by
  refine ⟨[ConnEvent.registerSender session_id, ConnEvent.insertActive session_id,
      ConnEvent.emitCreated session_id, ConnEvent.sendLogonRequest],
    [ConnEvent.onDisconnect, ConnEvent.unregisterSender session_id,
      ConnEvent.removeActive session_id], rfl, ?_, ?_, ?_⟩ <;> simp

end BootstrapTheorems

end Easyfix
